import Mathlib

/-!
Shallow embedding of the scraping repository's download / captcha / crawl
code, with theorems checking the specification's claims against it.

Conventions of the embedding:
* file contents are byte lists (List Nat);
* the file system is an association list from paths to contents, where a
  lookup returns the most recently written entry;
* network and browser effects are supplied by oracles indexed by call
  number, so every execution of an embedded function is a pure value;
* each embedded function also returns the trace of externally visible
  events (network calls, file writes, file removals, sleeps) it performed,
  in order.
-/

namespace Scraping

/-- Decidable equality on Except results, used to evaluate embedded
functions at concrete inputs. -/
instance {ε α : Type} [DecidableEq ε] [DecidableEq α] :
    DecidableEq (Except ε α) := fun x y =>
  match x, y with
  | Except.ok a, Except.ok b => decidable_of_iff (a = b) (by simp)
  | Except.error a, Except.error b => decidable_of_iff (a = b) (by simp)
  | Except.ok _, Except.error _ => isFalse (fun h => Except.noConfusion h)
  | Except.error _, Except.ok _ => isFalse (fun h => Except.noConfusion h)

/-- Externally visible events performed by the embedded code. -/
inductive Event where
  | netCall (url : String) (attempt : Nat)
  | fileWrite (path : String) (content : List Nat)
  | fileRemove (path : String)
  | sleep (seconds : Nat)
deriving DecidableEq, Repr

/-- File system: association list from path to content; lookup returns the
most recent write. -/
abbrev FS : Type := List (String × List Nat)

/-- Content stored at a path, if any. -/
def fsGet (fs : FS) (p : String) : Option (List Nat) :=
  match List.find? (fun kv => kv.fst == p) fs with
  | some kv => some kv.snd
  | none => none

/-- Writing a file: the new entry shadows older ones. -/
def fsWrite (fs : FS) (p : String) (c : List Nat) : FS :=
  (p, c) :: fs

/-- Removing a file: drop every entry at that path. -/
def fsRemove (fs : FS) (p : String) : FS :=
  List.filter (fun kv => !(kv.fst == p)) fs

/-- A network response: HTTP status code and body bytes
(requests.get in the source). -/
structure Response where
  status : Nat
  body : List Nat
deriving DecidableEq, Repr

/-- Network oracle for the downloader: result of the n-th requests.get
call; an error value models a raised transport exception. -/
def NetOracle : Type := Nat → Except Unit Response

/-- The four magic bytes of a PDF header, b'%PDF' in pdf_downloader.py. -/
def PDF_MAGIC : List Nat := [37, 80, 68, 70]

/-- Helper for Python str.split with a one-character separator: split the
character list at every occurrence of sep, keeping empty pieces. -/
def splitCharAux (sep : Char) : List Char → List Char → List (List Char)
  | [], acc => [acc.reverse]
  | c :: cs, acc =>
    if c = sep then acc.reverse :: splitCharAux sep cs []
    else splitCharAux sep cs (c :: acc)

/-- Python str.split(sep) for a one-character separator, the only form the
source uses. -/
def splitChar (sep : Char) (s : String) : List String :=
  (splitCharAux sep s.data []).map String.mk

/-- PDFDownloader._create_pdf_filename: the destination path is the
download directory joined with the last '/'-separated segment of the URL. -/
def create_pdf_filename (downloadDir pdfLink : String) : String :=
  downloadDir ++ "/" ++ (splitChar '/' pdfLink).getLastD ""

/-- PDFDownloader._is_pdf_valid: open the file, read the first 4 bytes and
compare with b'%PDF'; any exception (in particular a missing file) yields
false. -/
def is_pdf_valid (content : Option (List Nat)) : Bool :=
  match content with
  | none => false
  | some bs => bs.take 4 == PDF_MAGIC

/-- Helper for the retry loop of PDFDownloader.download_pdf: the source
sleeps retry_delay seconds only when more attempts remain. -/
def sleepIfMore (evs : List Event) (attempt maxRetries retryDelay : Nat) :
    List Event :=
  if attempt < maxRetries then evs ++ [Event.sleep retryDelay] else evs

/-- The retry loop of PDFDownloader.download_pdf (pdf_downloader.py lines
46-78), for attempt in range(1, max_retries + 1): fetch the URL; on status
200 write the body to the destination file and validate it, returning the
filename when valid; a non-200 status, a transport error and an invalid
PDF all raise and fall into the except branch, which sleeps retry_delay
when attempts remain and continues the loop; when the loop ends, None is
returned. The first argument counts the remaining loop iterations
(max_retries + 1 - attempt at every entry), making the recursion
structural; the loop ends exactly when it reaches zero. -/
def downloadLoop (net : NetOracle) (pdfLink pdfFilename : String)
    (retryDelay maxRetries : Nat) :
    Nat → Nat → FS → List Event → Option String × FS × List Event
  | 0, _, fs, evs => (none, fs, evs)
  | fuel + 1, attempt, fs, evs =>
    let evs1 := evs ++ [Event.netCall pdfLink attempt]
    match net attempt with
    | Except.error _ =>
        downloadLoop net pdfLink pdfFilename retryDelay maxRetries
          fuel (attempt + 1) fs
          (sleepIfMore evs1 attempt maxRetries retryDelay)
    | Except.ok resp =>
        if resp.status = 200 then
          let fs1 := fsWrite fs pdfFilename resp.body
          let evs2 := evs1 ++ [Event.fileWrite pdfFilename resp.body]
          if is_pdf_valid (fsGet fs1 pdfFilename) then
            (some pdfFilename, fs1, evs2)
          else
            downloadLoop net pdfLink pdfFilename retryDelay maxRetries
              fuel (attempt + 1) fs1
              (sleepIfMore evs2 attempt maxRetries retryDelay)
        else
          downloadLoop net pdfLink pdfFilename retryDelay maxRetries
            fuel (attempt + 1) fs
            (sleepIfMore evs1 attempt maxRetries retryDelay)

/-- PDFDownloader.download_pdf (pdf_downloader.py lines 34-78): compute the
destination filename; if it already exists return it at once with no
events; otherwise run the retry loop, which iterates max_retries times
starting at attempt 1. -/
def download_pdf (net : NetOracle) (downloadDir pdfLink : String)
    (retryDelay maxRetries : Nat) (fs : FS) :
    Option String × FS × List Event :=
  let pdfFilename := create_pdf_filename downloadDir pdfLink
  if (fsGet fs pdfFilename).isSome then
    (some pdfFilename, fs, [])
  else
    downloadLoop net pdfLink pdfFilename retryDelay maxRetries
      maxRetries 1 fs []

/-! Embedding of the v1 pipeline (src/v1/main.py). -/

/-- Network oracle for the v1 pipeline: outcome of the n-th
requests.get + raise_for_status pair; ok carries the body bytes of a 2xx
response, an error models a raised RequestException (transport failure or
non-2xx status raised by raise_for_status). -/
def V1Net : Type := Nat → Except Unit (List Nat)

/-- Candidate path built by v1 get_unique_filename for a given counter:
os.path.join(PDF_DIR, name_counter + ext). -/
def mkCandidate (dir name ext : String) (counter : Nat) : String :=
  dir ++ "/" ++ name ++ "_" ++ toString counter ++ ext

/-- The while loop of v1 get_unique_filename, with explicit fuel: increment
the counter while the candidate path exists. Fuel fs.length + 1 always
suffices, since the loop stops at the first free counter and the file
system holds at most fs.length distinct paths. -/
def uniqueCounter (fs : FS) (dir name ext : String) :
    Nat → Nat → Nat
  | counter, 0 => counter
  | counter, fuel + 1 =>
    if (fsGet fs (mkCandidate dir name ext counter)).isSome then
      uniqueCounter fs dir name ext (counter + 1) fuel
    else counter

/-- os.path.splitext on a basename: split at the last dot; a name without
a dot has an empty extension. Basenames consisting only of leading dots,
which Python treats specially and which do not occur for these URLs, are
not distinguished. -/
def splitext (s : String) : String × String :=
  let rev := s.data.reverse
  let extRev := rev.takeWhile (fun c => c ≠ '.')
  if extRev.length = rev.length then (s, "")
  else (String.mk ((rev.drop (extRev.length + 1)).reverse),
        String.mk ('.' :: extRev.reverse))

/-- PDFDownloader.get_unique_filename (v1/main.py lines 161-167):
basename of the URL path, split into name and extension, then the first
counter from 1 up whose candidate path does not exist. The URL is assumed
to carry no query or fragment, as in the repository, so the basename of
urlparse(url).path is its last '/'-separated segment. -/
def get_unique_filename (fs : FS) (dir url : String) : String :=
  let base := (splitChar '/' url).getLastD ""
  let ne := splitext base
  mkCandidate dir ne.fst ne.snd
    (uniqueCounter fs dir ne.fst ne.snd 1 (fs.length + 1))

/-- PDFDownloader.validate_pdf (v1/main.py lines 169-175): open the file
and run the external full PDF parse, supplied here as the oracle
pdfParses; any exception, including a missing file, yields false. -/
def v1_validate_pdf (pdfParses : List Nat → Bool)
    (content : Option (List Nat)) : Bool :=
  match content with
  | none => false
  | some bs => pdfParses bs

/-- The retry loop of v1 PDFDownloader.download_pdf (v1/main.py lines
126-150), for attempt in range(MAX_RETRIES): fetch the URL; on a
RequestException sleep RETRY_DELAY when later attempts remain and
continue; on success compute a fresh unique filename, write the body
there, and validate: valid returns True at once, invalid removes the file
and returns False at once; an exhausted loop returns False. -/
def v1_downloadLoop (net : V1Net) (pdfParses : List Nat → Bool)
    (dir url : String) (maxRetries retryDelay : Nat) :
    Nat → Nat → FS → List Event → Bool × FS × List Event
  | 0, _, fs, evs => (false, fs, evs)
  | fuel + 1, attempt, fs, evs =>
    let evs1 := evs ++ [Event.netCall url attempt]
    match net attempt with
    | Except.error _ =>
        let evs2 := if attempt < maxRetries - 1 then
          evs1 ++ [Event.sleep retryDelay] else evs1
        v1_downloadLoop net pdfParses dir url maxRetries retryDelay
          fuel (attempt + 1) fs evs2
    | Except.ok body =>
        let pdfName := get_unique_filename fs dir url
        let fs1 := fsWrite fs pdfName body
        let evs2 := evs1 ++ [Event.fileWrite pdfName body]
        if v1_validate_pdf pdfParses (fsGet fs1 pdfName) then
          (true, fs1, evs2)
        else
          (false, fsRemove fs1 pdfName, evs2 ++ [Event.fileRemove pdfName])

/-- PDFDownloader.download_pdf of v1, entered at attempt 0 with an event
accumulator; the loop body runs MAX_RETRIES times, counted by the fuel
argument (maxRetries - attempt at every entry). -/
def v1_download_pdf (net : V1Net) (pdfParses : List Nat → Bool)
    (dir url : String) (maxRetries retryDelay : Nat) (fs : FS)
    (evs : List Event) : Bool × FS × List Event :=
  v1_downloadLoop net pdfParses dir url maxRetries retryDelay
    maxRetries 0 fs evs

/-- PDFDownloader.download_pdfs (v1/main.py lines 152-159): submit
download_pdf for every URL of the input, unconditionally; the worker-pool
parallelism is modelled as sequential execution in input order, which
preserves the per-target control flow the claims are about. -/
def v1_download_pdfs (net : String → V1Net) (pdfParses : List Nat → Bool)
    (dir : String) (maxRetries retryDelay : Nat) :
    List String → FS → List Event → FS × List Event × List Bool
  | [], fs, evs => (fs, evs, [])
  | url :: rest, fs, evs =>
    let r := v1_download_pdf (net url) pdfParses dir url maxRetries
      retryDelay fs evs
    let rec' := v1_download_pdfs net pdfParses dir maxRetries retryDelay
      rest r.2.1 r.2.2
    (rec'.1, rec'.2.1, r.1 :: rec'.2.2)

/-! Embedding of the resume-state store (v1/main.py lines 196-204). -/

/-- Condition of the backing resume-state file on disk. -/
inductive StateFile where
  | absent
  | corrupt
  | valid (ids : List String)
deriving DecidableEq, Repr

/-- Crawler.load_resume_state (v1/main.py lines 196-200): a missing file
yields the empty set; an existing file is fed to pickle.load, whose
exception on a corrupt file is not caught anywhere and propagates. The
set of identifiers is carried as a list, membership being what matters. -/
def load_resume_state : StateFile → Except Unit (List String)
  | StateFile.absent => Except.ok []
  | StateFile.corrupt => Except.error ()
  | StateFile.valid ids => Except.ok ids

/-- Result of one Crawler.crawl run in the embedding. -/
structure CrawlResult where
  fs : FS
  events : List Event
  savedState : List String
  outcomes : List Bool
deriving DecidableEq, Repr

/-- Crawler.crawl together with Crawler.__init__ (v1/main.py lines
187-216): load the resume state into visited_urls, then download every
extracted URL via download_pdfs, then persist visited_urls in the finally
block. The source never consults visited_urls when dispatching and never
adds to it, so the persisted state is exactly the loaded one. Page
navigation and captcha handling, out of scope for these claims, are
elided; a corrupt state file makes the constructor raise before crawl
runs. -/
def v1_crawl (stateFile : StateFile) (urls : List String)
    (net : String → V1Net) (pdfParses : List Nat → Bool) (dir : String)
    (maxRetries retryDelay : Nat) (fs : FS) : Except Unit CrawlResult :=
  match load_resume_state stateFile with
  | Except.error e => Except.error e
  | Except.ok visited =>
    let r := v1_download_pdfs net pdfParses dir maxRetries retryDelay
      urls fs []
    Except.ok ⟨r.1, r.2.1, visited, r.2.2⟩

/-! Embedding of the captcha handler (src/captcha_handler.py). -/

/-- Remote solving service configuration: endpoint URL and API key; an
empty string models a missing value (falsy in the source). -/
structure CapConfig where
  aiUrl : String
  aiKey : String
deriving DecidableEq, Repr

/-- Outcome of one submission round in enter_captcha_solution: the
fill/submit/page-scan browser calls raised, or the page showed the
Invalid CAPTCHA marker, or the solution was accepted. -/
inductive EnterOutcome where
  | throws
  | wrongMarker
  | accepted
deriving DecidableEq, Repr

/-- Oracles for the captcha handler's external effects, each indexed by
its own call number: whether the n-th artifact fetch succeeds, the n-th
manual input text, the n-th remote-service reply (an error models a
transport failure or non-200 status, an empty string a missing solution
field), and the n-th submission outcome. -/
structure CapOracle where
  fetchOk : Nat → Bool
  manual : Nat → String
  ai : Nat → Except Unit String
  enter : Nat → EnterOutcome

/-- Observable events of the captcha handler. -/
inductive CapEvent where
  | fetchArtifact
  | selectHuman
  | selectAI
  | aiServiceCall
  | manualPrompt
  | submitSolution (sol : String)
  | cleanupRemoved
  | cleanupMissing
deriving DecidableEq, Repr

/-- State threaded through the captcha handler: per-oracle call counters,
whether the cached captcha image file exists, and the event trace. -/
structure CapState where
  fetchCnt : Nat
  manualCnt : Nat
  aiCnt : Nat
  enterCnt : Nat
  fileExists : Bool
  events : List CapEvent
deriving DecidableEq, Repr

/-- CaptchaHandler.fetch_captcha_file (captcha_handler.py lines 18-35):
fetch the captcha image and save it locally; on failure the exception is
logged and re-raised, and no file is written. An error result carries the
state at the raise. -/
def fetch_captcha_file (o : CapOracle) (s : CapState) :
    Except CapState CapState :=
  let s1 := { s with fetchCnt := s.fetchCnt + 1 }
  if o.fetchOk s.fetchCnt then
    Except.ok { s1 with fileExists := true,
                        events := s1.events ++ [CapEvent.fetchArtifact] }
  else
    Except.error s1

/-- CaptchaHandler.solve_captcha_manually (captcha_handler.py lines
37-41): block on interactive input and return the stripped text. -/
def solve_captcha_manually (o : CapOracle) (s : CapState) :
    String × CapState :=
  ((o.manual s.manualCnt).trim,
   { s with manualCnt := s.manualCnt + 1,
            events := s.events ++ [CapEvent.manualPrompt] })

/-- CaptchaHandler.solve_captcha_with_ai (captcha_handler.py lines
43-67): with an unconfigured service (empty URL or key) fall back to
manual solving without contacting the service; otherwise post the image
to the service, returning its non-empty solution, and raise on any other
outcome (transport error, non-200 status, missing or empty solution). -/
def solve_captcha_with_ai (cfg : CapConfig) (o : CapOracle)
    (s : CapState) : Except CapState (String × CapState) :=
  if cfg.aiUrl = "" || cfg.aiKey = "" then
    Except.ok (solve_captcha_manually o s)
  else
    let s1 := { s with aiCnt := s.aiCnt + 1,
                       events := s.events ++ [CapEvent.aiServiceCall] }
    match o.ai s.aiCnt with
    | Except.error _ => Except.error s1
    | Except.ok sol => if sol = "" then Except.error s1
                       else Except.ok (sol, s1)

/-- The try body of CaptchaHandler.enter_captcha_solution: fill the
input, submit, wait, and scan the page for the Invalid CAPTCHA marker;
any browser failure raises. -/
def enter_attempt_body (out : EnterOutcome) : Except Unit Bool :=
  match out with
  | EnterOutcome.throws => Except.error ()
  | EnterOutcome.wrongMarker => Except.ok false
  | EnterOutcome.accepted => Except.ok true

/-- CaptchaHandler.enter_captcha_solution (captcha_handler.py lines
69-84): run the try body and catch every exception, turning it into the
same False result a wrong solution produces; the function itself never
raises. -/
def enter_captcha_solution (o : CapOracle) (sol : String)
    (s : CapState) : Bool × CapState :=
  let s1 := { s with enterCnt := s.enterCnt + 1,
                     events := s.events ++ [CapEvent.submitSolution sol] }
  match enter_attempt_body (o.enter s.enterCnt) with
  | Except.ok b => (b, s1)
  | Except.error _ => (false, s1)

/-- CaptchaHandler.clean_up_captcha_file (captcha_handler.py lines
86-95): delete the cached image when present, warn when absent; never
raises in the embedding (the inner try/except swallows removal errors). -/
def clean_up_captcha_file (s : CapState) : CapState :=
  if s.fileExists then
    { s with fileExists := false,
             events := s.events ++ [CapEvent.cleanupRemoved] }
  else
    { s with events := s.events ++ [CapEvent.cleanupMissing] }

/-- CaptchaHandler.solve_captcha (captcha_handler.py lines 97-124).
Inside a try/finally: fetch the artifact; with exactly one try remaining
take the manual strategy, otherwise take the AI branch, whose failure
recurses with one fewer try when tries_remaining - 1 > 0 and otherwise
falls back to manual; submit the solution, returning True on success,
recursing with one fewer try on a wrong solution while tries_remaining >
1, and returning False otherwise. The finally block deletes the cached
artifact on every path, including propagated exceptions and after
recursive calls return. tries_remaining is an integer exactly as in the
source, with no positivity guard. -/
def solve_captcha (cfg : CapConfig) (o : CapOracle) (tries : Int)
    (s : CapState) : Except CapState (Bool × CapState) :=
  let step : Except CapState (Bool × CapState) :=
    match fetch_captcha_file o s with
    | Except.error s1 => Except.error s1
    | Except.ok s1 =>
      if tries = 1 then
        let s2 := { s1 with events := s1.events ++ [CapEvent.selectHuman] }
        let ms := solve_captcha_manually o s2
        let es := enter_captcha_solution o ms.fst ms.snd
        if es.fst then Except.ok (true, es.snd)
        else if _h : tries > 1 then solve_captcha cfg o (tries - 1) es.snd
        else Except.ok (false, es.snd)
      else
        let s2 := { s1 with events := s1.events ++ [CapEvent.selectAI] }
        match solve_captcha_with_ai cfg o s2 with
        | Except.ok (sol, s3) =>
          let es := enter_captcha_solution o sol s3
          if es.fst then Except.ok (true, es.snd)
          else if _h : tries > 1 then solve_captcha cfg o (tries - 1) es.snd
          else Except.ok (false, es.snd)
        | Except.error s3 =>
          if _h : tries - 1 > 0 then solve_captcha cfg o (tries - 1) s3
          else
            let ms := solve_captcha_manually o s3
            let es := enter_captcha_solution o ms.fst ms.snd
            if es.fst then Except.ok (true, es.snd)
            else if _h : tries > 1 then solve_captcha cfg o (tries - 1) es.snd
            else Except.ok (false, es.snd)
  match step with
  | Except.ok bs => Except.ok (bs.fst, clean_up_captcha_file bs.snd)
  | Except.error s1 => Except.error (clean_up_captcha_file s1)
termination_by tries.toNat
decreasing_by all_goals omega

/-- Event trace of a solve_captcha result, on both the normal and the
exceptional path. -/
def capResultEvents : Except CapState (Bool × CapState) → List CapEvent
  | Except.ok bs => bs.snd.events
  | Except.error s => s.events

/-- The same oracle with every submission-time browser exception replaced
by a wrong-solution page marker; comparing runs under o and degradeEnter o
expresses that a raise during submission behaves exactly like a wrong
solution. -/
def degradeEnter (o : CapOracle) : CapOracle :=
  { o with enter := fun k => match o.enter k with
      | EnterOutcome.throws => EnterOutcome.wrongMarker
      | out => out }

/-! Embedding of the retry decorator (src/selenium_handler.py lines
15-29). -/

/-- The while loop of the retry decorator: call the wrapped function; on
an exception increment tries, re-raise when tries has reached max_tries,
otherwise sleep delay * backoff ^ (tries - 1) and loop. A loop that ends
without a call (max_tries = 0) falls through and returns none, as the
Python wrapper implicitly returns None. The call oracle is indexed by the
number of calls already made; the recorded sleep durations are returned
alongside the result. -/
def retryLoop (f : Nat → Except Unit α) (maxTries delay backoff : Nat) :
    Nat → Nat → List Nat → Except Unit (Option α) × List Nat
  | 0, _, sleeps => (Except.ok none, sleeps)
  | fuel + 1, tries, sleeps =>
    match f tries with
    | Except.ok a => (Except.ok (some a), sleeps)
    | Except.error _ =>
      let tries1 := tries + 1
      if tries1 = maxTries then (Except.error (), sleeps)
      else retryLoop f maxTries delay backoff fuel tries1
        (sleeps ++ [delay * backoff ^ (tries1 - 1)])

/-- The retry decorator applied to a call: enter the loop with tries = 0
and no recorded sleeps; the while condition tries < max_tries is counted
by the fuel argument (maxTries - tries at every entry). -/
def retryCall (f : Nat → Except Unit α) (maxTries delay backoff : Nat) :
    Except Unit (Option α) × List Nat :=
  retryLoop f maxTries delay backoff maxTries 0 []

/-! Helper lemmas. -/

theorem fsGet_fsWrite (fs : FS) (p : String) (c : List Nat) :
    fsGet (fsWrite fs p c) p = some c := by
  simp [fsGet, fsWrite, List.find?]

theorem fsGet_fsRemove (fs : FS) (p : String) :
    fsGet (fsRemove fs p) p = none := by
  unfold fsGet fsRemove
  have h : List.find? (fun kv => kv.fst == p)
      (List.filter (fun kv : String × List Nat => !(kv.fst == p)) fs)
      = none := by
    rw [List.find?_eq_none]
    intro x hx
    have hmem := List.mem_filter.mp hx
    simpa using hmem.2
  rw [h]

/-- Every event in the trace of the pdf_downloader retry loop is either an
event of the incoming accumulator, a network call for the target link, a
file write to the single destination filename, or a sleep of exactly
retryDelay seconds. -/
theorem downloadLoop_events (net : NetOracle) (link fname : String)
    (rd mr : Nat) : ∀ fuel a fs evs e,
    e ∈ (downloadLoop net link fname rd mr fuel a fs evs).2.2 →
    e ∈ evs ∨ (∃ n, e = Event.netCall link n) ∨
      (∃ c, e = Event.fileWrite fname c) ∨ e = Event.sleep rd := by
  intro fuel
  induction fuel with
  | zero =>
    intro a fs evs e he
    exact Or.inl he
  | succ fuel ih =>
    intro a fs evs e he
    rw [downloadLoop] at he
    have decomp : ∀ evs₀, e ∈ sleepIfMore evs₀ a mr rd → e ∈ evs₀ ∨
        e = Event.sleep rd := by
      intro evs₀ h
      unfold sleepIfMore at h
      by_cases hlt : a < mr
      · rw [if_pos hlt] at h
        rcases List.mem_append.mp h with h1 | h1
        · exact Or.inl h1
        · simp at h1; exact Or.inr h1
      · rw [if_neg hlt] at h
        exact Or.inl h
    cases hnet : net a with
    | error u =>
      rw [hnet] at he
      rcases ih (a + 1) fs _ e he with h1 | h1
      · rcases decomp _ h1 with h2 | h2
        · rcases List.mem_append.mp h2 with h3 | h3
          · exact Or.inl h3
          · simp at h3; exact Or.inr (Or.inl ⟨a, h3⟩)
        · exact Or.inr (Or.inr (Or.inr h2))
      · exact Or.inr h1
    | ok resp =>
      rw [hnet] at he
      dsimp only at he
      by_cases hst : resp.status = 200
      · rw [if_pos hst] at he
        by_cases hval : is_pdf_valid (fsGet (fsWrite fs fname resp.body)
            fname)
        · rw [if_pos hval] at he
          rcases List.mem_append.mp he with h1 | h1
          · rcases List.mem_append.mp h1 with h2 | h2
            · exact Or.inl h2
            · simp at h2; exact Or.inr (Or.inl ⟨a, h2⟩)
          · simp at h1
            exact Or.inr (Or.inr (Or.inl ⟨resp.body, h1⟩))
        · rw [if_neg hval] at he
          rcases ih (a + 1) _ _ e he with h1 | h1
          · rcases decomp _ h1 with h2 | h2
            · rcases List.mem_append.mp h2 with h3 | h3
              · rcases List.mem_append.mp h3 with h4 | h4
                · exact Or.inl h4
                · simp at h4; exact Or.inr (Or.inl ⟨a, h4⟩)
              · simp at h3
                exact Or.inr (Or.inr (Or.inl ⟨resp.body, h3⟩))
            · exact Or.inr (Or.inr (Or.inr h2))
          · exact Or.inr h1
      · rw [if_neg hst] at he
        rcases ih (a + 1) _ _ e he with h1 | h1
        · rcases decomp _ h1 with h2 | h2
          · rcases List.mem_append.mp h2 with h3 | h3
            · exact Or.inl h3
            · simp at h3; exact Or.inr (Or.inl ⟨a, h3⟩)
          · exact Or.inr (Or.inr (Or.inr h2))
        · exact Or.inr h1

/-- When the pdf_downloader retry loop returns a filename, that filename
is the destination filename and the final file system holds a file
there. -/
theorem downloadLoop_some (net : NetOracle) (link fname : String)
    (rd mr : Nat) : ∀ fuel a fs evs f fs' evs',
    downloadLoop net link fname rd mr fuel a fs evs = (some f, fs', evs') →
    f = fname ∧ (fsGet fs' fname).isSome = true := by
  intro fuel
  induction fuel with
  | zero =>
    intro a fs evs f fs' evs' hres
    rw [downloadLoop] at hres
    simp at hres
  | succ fuel ih =>
    intro a fs evs f fs' evs' hres
    rw [downloadLoop] at hres
    cases hnet : net a with
    | error u =>
      rw [hnet] at hres
      exact ih (a + 1) _ _ f fs' evs' hres
    | ok resp =>
      rw [hnet] at hres
      dsimp only at hres
      by_cases hst : resp.status = 200
      · rw [if_pos hst] at hres
        by_cases hval : is_pdf_valid (fsGet (fsWrite fs fname resp.body)
            fname)
        · rw [if_pos hval] at hres
          have h1 := congrArg Prod.fst hres
          have h2 := congrArg (fun r => r.2.1) hres
          simp only [Option.some.injEq] at h1
          simp only at h2
          refine ⟨h1.symm, ?_⟩
          rw [← h2, fsGet_fsWrite]
          rfl
        · rw [if_neg hval] at hres
          exact ih (a + 1) _ _ f fs' evs' hres
      · rw [if_neg hst] at hres
        exact ih (a + 1) _ _ f fs' evs' hres

/-- Closed form of the v1 retry loop on an attempt whose fetch succeeds
with a body the validator rejects: the loop returns False at once, after
writing the body to the fresh unique filename, removing that file again,
and recording exactly the three corresponding events. -/
theorem v1_invalid_case (net : V1Net) (parses : List Nat → Bool)
    (dir url : String) (mr rd fuel a : Nat) (fs : FS) (evs : List Event)
    (body : List Nat) (hnet : net a = Except.ok body)
    (hval : parses body = false) :
    v1_downloadLoop net parses dir url mr rd (fuel + 1) a fs evs =
      (false,
       fsRemove (fsWrite fs (get_unique_filename fs dir url) body)
         (get_unique_filename fs dir url),
       evs ++ [Event.netCall url a,
               Event.fileWrite (get_unique_filename fs dir url) body,
               Event.fileRemove (get_unique_filename fs dir url)]) := by
  have hv : v1_validate_pdf parses
      (fsGet (fsWrite fs (get_unique_filename fs dir url) body)
        (get_unique_filename fs dir url)) = false := by
    rw [fsGet_fsWrite]; exact hval
  rw [v1_downloadLoop, hnet]
  dsimp only
  rw [if_neg (by simp [hv])]
  simp

/-- Every event in the trace of the v1 retry loop is an event of the
incoming accumulator, a network call for the target URL, a file write, a
file removal, or a sleep of exactly retryDelay seconds. -/
theorem v1_downloadLoop_events (net : V1Net) (parses : List Nat → Bool)
    (dir url : String) (mr rd : Nat) : ∀ fuel a fs evs e,
    e ∈ (v1_downloadLoop net parses dir url mr rd fuel a fs evs).2.2 →
    e ∈ evs ∨ (∃ n, e = Event.netCall url n) ∨
      (∃ p c, e = Event.fileWrite p c) ∨ (∃ p, e = Event.fileRemove p) ∨
      e = Event.sleep rd := by
  intro fuel
  induction fuel with
  | zero =>
    intro a fs evs e he
    exact Or.inl he
  | succ fuel ih =>
    intro a fs evs e he
    rw [v1_downloadLoop] at he
    · cases hnet : net a with
      | error u =>
        rw [hnet] at he
        dsimp only at he
        rcases ih (a + 1) fs _ e he with h1 | h1
        · by_cases hlt : a < mr - 1
          · rw [if_pos hlt] at h1
            rcases List.mem_append.mp h1 with h2 | h2
            · rcases List.mem_append.mp h2 with h3 | h3
              · exact Or.inl h3
              · simp at h3; exact Or.inr (Or.inl ⟨a, h3⟩)
            · simp at h2
              exact Or.inr (Or.inr (Or.inr (Or.inr h2)))
          · rw [if_neg hlt] at h1
            rcases List.mem_append.mp h1 with h2 | h2
            · exact Or.inl h2
            · simp at h2; exact Or.inr (Or.inl ⟨a, h2⟩)
        · exact Or.inr h1
      | ok body =>
        rw [hnet] at he
        dsimp only at he
        by_cases hval : v1_validate_pdf parses
            (fsGet (fsWrite fs (get_unique_filename fs dir url) body)
              (get_unique_filename fs dir url))
        · rw [if_pos hval] at he
          rcases List.mem_append.mp he with h1 | h1
          · rcases List.mem_append.mp h1 with h2 | h2
            · exact Or.inl h2
            · simp at h2; exact Or.inr (Or.inl ⟨a, h2⟩)
          · simp at h1
            exact Or.inr (Or.inr (Or.inl ⟨_, _, h1⟩))
        · rw [if_neg hval] at he
          rcases List.mem_append.mp he with h1 | h1
          · rcases List.mem_append.mp h1 with h2 | h2
            · rcases List.mem_append.mp h2 with h3 | h3
              · exact Or.inl h3
              · simp at h3; exact Or.inr (Or.inl ⟨a, h3⟩)
            · simp at h2
              exact Or.inr (Or.inr (Or.inl ⟨_, _, h2⟩))
          · simp at h1
            exact Or.inr (Or.inr (Or.inr (Or.inl ⟨_, h1⟩)))

/-- Replacing a submission-time exception by a wrong-solution marker does
not change the result of enter_captcha_solution: the except branch returns
the same False the marker branch returns. -/
theorem enter_captcha_degrade (o : CapOracle) (sol : String) (s : CapState) :
    enter_captcha_solution (degradeEnter o) sol s =
      enter_captcha_solution o sol s := by
  unfold enter_captcha_solution degradeEnter enter_attempt_body
  dsimp only
  cases h : o.enter s.enterCnt <;> rfl

/-- degradeEnter leaves the artifact-fetch step unchanged. -/
theorem fetch_captcha_degrade (o : CapOracle) (s : CapState) :
    fetch_captcha_file (degradeEnter o) s = fetch_captcha_file o s := rfl

/-- degradeEnter leaves the manual strategy unchanged. -/
theorem manual_degrade (o : CapOracle) (s : CapState) :
    solve_captcha_manually (degradeEnter o) s =
      solve_captcha_manually o s := rfl

/-- degradeEnter leaves the AI strategy unchanged. -/
theorem ai_degrade (cfg : CapConfig) (o : CapOracle) (s : CapState) :
    solve_captcha_with_ai cfg (degradeEnter o) s =
      solve_captcha_with_ai cfg o s := rfl

/-- Auxiliary induction: a full solve_captcha run is unchanged when every
submission-time exception of the oracle is replaced by a wrong-solution
marker. -/
theorem solve_captcha_degrade_aux (cfg : CapConfig) (o : CapOracle) :
    ∀ (k : Nat) (tries : Int) (s : CapState), tries.toNat ≤ k →
    solve_captcha cfg (degradeEnter o) tries s =
      solve_captcha cfg o tries s := by
  intro k
  induction k with
  | zero =>
    intro tries s hk
    rw [solve_captcha, solve_captcha]
    simp only [fetch_captcha_degrade, manual_degrade, ai_degrade,
      enter_captcha_degrade]
    cases hf : fetch_captcha_file o s with
    | error s1 => simp only [hf]
    | ok s1 =>
      simp only [hf]
      by_cases h1 : tries = 1
      · simp only [if_pos h1]
        have hng : ¬(tries > 1) := by omega
        simp only [dif_neg hng]
      · simp only [if_neg h1]
        cases hai : solve_captcha_with_ai cfg o
            { s1 with events := s1.events ++ [CapEvent.selectAI] } with
        | ok pair =>
          obtain ⟨sol, s3⟩ := pair
          simp only [hai]
          have hng : ¬(tries > 1) := by omega
          simp only [dif_neg hng]
        | error s3 =>
          simp only [hai]
          have hng : ¬(tries - 1 > 0) := by omega
          have hng2 : ¬(tries > 1) := by omega
          simp only [dif_neg hng, dif_neg hng2]
  | succ k ih =>
    intro tries s hk
    rw [solve_captcha, solve_captcha]
    simp only [fetch_captcha_degrade, manual_degrade, ai_degrade,
      enter_captcha_degrade]
    cases hf : fetch_captcha_file o s with
    | error s1 => simp only [hf]
    | ok s1 =>
      simp only [hf]
      by_cases h1 : tries = 1
      · simp only [if_pos h1]
        have hng : ¬(tries > 1) := by omega
        simp only [dif_neg hng]
      · simp only [if_neg h1]
        cases hai : solve_captcha_with_ai cfg o
            { s1 with events := s1.events ++ [CapEvent.selectAI] } with
        | ok pair =>
          obtain ⟨sol, s3⟩ := pair
          simp only [hai]
          by_cases hg : tries > 1
          · simp only [dif_pos hg]
            by_cases hes : (enter_captcha_solution o sol s3).fst
            · simp only [if_pos hes]
            · simp only [if_neg hes]
              rw [ih (tries - 1) _ (by omega)]
          · simp only [dif_neg hg]
        | error s3 =>
          simp only [hai]
          by_cases hg : tries - 1 > 0
          · simp only [dif_pos hg]
            rw [ih (tries - 1) _ (by omega)]
          · simp only [dif_neg hg]
            by_cases hg2 : tries > 1
            · simp only [dif_pos hg2]
              by_cases hes : (enter_captcha_solution o
                  (solve_captcha_manually o s3).fst
                  (solve_captcha_manually o s3).snd).fst
              · simp only [if_pos hes]
              · simp only [if_neg hes]
                rw [ih (tries - 1) _ (by omega)]
            · simp only [dif_neg hg2]

/-- The submission step leaves a state with the counter bumped and the
submitSolution event appended, independently of the outcome. -/
theorem enter_snd (o : CapOracle) (sol : String) (s : CapState) :
    (enter_captcha_solution o sol s).snd =
      { s with enterCnt := s.enterCnt + 1,
               events := s.events ++ [CapEvent.submitSolution sol] } := by
  unfold enter_captcha_solution
  cases enter_attempt_body (o.enter s.enterCnt) <;> rfl

/-- Cleanup appends exactly one cleanup event, removed or missing
according to the cached file's presence. -/
theorem clean_events (s : CapState) :
    (clean_up_captcha_file s).events = s.events ++
      [if s.fileExists then CapEvent.cleanupRemoved
       else CapEvent.cleanupMissing] := by
  unfold clean_up_captcha_file
  by_cases h : s.fileExists <;> simp [h]

/-- A successful AI-strategy call appends exactly one event: a service
call when the service is configured, a manual prompt when the branch fell
back to manual solving. -/
theorem ai_ok_events (cfg : CapConfig) (o : CapOracle) (s : CapState)
    (sol : String) (s3 : CapState)
    (h : solve_captcha_with_ai cfg o s = Except.ok (sol, s3)) :
    s3.events = s.events ++ [CapEvent.aiServiceCall] ∨
      s3.events = s.events ++ [CapEvent.manualPrompt] := by
  unfold solve_captcha_with_ai at h
  by_cases hc : cfg.aiUrl = "" || cfg.aiKey = ""
  · rw [if_pos hc] at h
    unfold solve_captcha_manually at h
    injection h with h1
    injection h1 with ha hb
    right
    rw [← hb]
  · rw [if_neg hc] at h
    dsimp only at h
    cases hai : o.ai s.aiCnt with
    | error u => rw [hai] at h; exact absurd h (by simp)
    | ok sol' =>
      rw [hai] at h
      dsimp only at h
      by_cases he : sol' = ""
      · rw [if_pos he] at h; exact absurd h (by simp)
      · rw [if_neg he] at h
        injection h with h1
        injection h1 with ha hb
        left
        rw [← hb]

/-- A failing AI-strategy call happens only after an actual service call,
whose event is appended to the state it raises with. -/
theorem ai_error_events (cfg : CapConfig) (o : CapOracle) (s : CapState)
    (s3 : CapState)
    (h : solve_captcha_with_ai cfg o s = Except.error s3) :
    s3.events = s.events ++ [CapEvent.aiServiceCall] := by
  unfold solve_captcha_with_ai at h
  by_cases hc : cfg.aiUrl = "" || cfg.aiKey = ""
  · rw [if_pos hc] at h; exact absurd h (by simp)
  · rw [if_neg hc] at h
    dsimp only at h
    cases hai : o.ai s.aiCnt with
    | error u =>
      rw [hai] at h
      injection h with h1
      rw [← h1]
    | ok sol' =>
      rw [hai] at h
      dsimp only at h
      by_cases he : sol' = ""
      · rw [if_pos he] at h
        injection h with h1
        rw [← h1]
      · rw [if_neg he] at h; exact absurd h (by simp)

/-- Closed form of solve_captcha at exactly one try remaining: fetch, then
the human strategy, one submission, and cleanup; no recursion. -/
theorem solve_captcha_one (cfg : CapConfig) (o : CapOracle) (s : CapState) :
    solve_captcha cfg o 1 s =
      match fetch_captcha_file o s with
      | Except.error s1 => Except.error (clean_up_captcha_file s1)
      | Except.ok s1 =>
        let s2 := { s1 with events := s1.events ++ [CapEvent.selectHuman] }
        let ms := solve_captcha_manually o s2
        let es := enter_captcha_solution o ms.fst ms.snd
        Except.ok (es.fst, clean_up_captcha_file es.snd) := by
  rw [solve_captcha]
  cases hf : fetch_captcha_file o s with
  | error s1 => rfl
  | ok s1 =>
    dsimp only
    rw [if_pos rfl]
    have hng : ¬((1 : Int) > 1) := by decide
    simp only [dif_neg hng]
    cases hb : (enter_captcha_solution o
        (solve_captcha_manually o
          { s1 with events := s1.events ++ [CapEvent.selectHuman] }).fst
        (solve_captcha_manually o
          { s1 with events := s1.events ++ [CapEvent.selectHuman] }).snd).fst
    · simp [hb]
    · simp [hb]

/-- Closed form of solve_captcha at a non-positive try budget: fetch, then
the AI branch (falling back to manual only inside that branch), one
submission, and cleanup; no recursion and no guard rejects the budget. -/
theorem solve_captcha_nonpos (cfg : CapConfig) (o : CapOracle)
    (tries : Int) (s : CapState) (htries : tries ≤ 0) :
    solve_captcha cfg o tries s =
      match fetch_captcha_file o s with
      | Except.error s1 => Except.error (clean_up_captcha_file s1)
      | Except.ok s1 =>
        let s2 := { s1 with events := s1.events ++ [CapEvent.selectAI] }
        match solve_captcha_with_ai cfg o s2 with
        | Except.ok (sol, s3) =>
          let es := enter_captcha_solution o sol s3
          Except.ok (es.fst, clean_up_captcha_file es.snd)
        | Except.error s3 =>
          let ms := solve_captcha_manually o s3
          let es := enter_captcha_solution o ms.fst ms.snd
          Except.ok (es.fst, clean_up_captcha_file es.snd) := by
  rw [solve_captcha]
  cases hf : fetch_captcha_file o s with
  | error s1 => rfl
  | ok s1 =>
    dsimp only
    have h1 : ¬(tries = 1) := by omega
    have hg : ¬(tries > 1) := by omega
    have hg1 : ¬(tries - 1 > 0) := by omega
    rw [if_neg h1]
    cases hai : solve_captcha_with_ai cfg o
        { s1 with events := s1.events ++ [CapEvent.selectAI] } with
    | ok pair =>
      obtain ⟨sol, s3⟩ := pair
      dsimp only
      simp only [dif_neg hg]
      cases hb : (enter_captcha_solution o sol s3).fst
      · simp [hb]
      · simp [hb]
    | error s3 =>
      dsimp only
      simp only [dif_neg hg1, dif_neg hg]
      cases hb : (enter_captcha_solution o
          (solve_captcha_manually o s3).fst
          (solve_captcha_manually o s3).snd).fst
      · simp [hb]
      · simp [hb]

/-- The sleeps recorded by the retry decorator's loop extend the incoming
list by the geometric sequence delay * backoff ^ (t + j), j = 0, 1, ...,
where t is the starting value of tries. -/
theorem retryLoop_sleeps {α : Type} (f : Nat → Except Unit α)
    (m d b : Nat) : ∀ fuel t s,
    ∃ n, (retryLoop f m d b fuel t s).2 =
      s ++ (List.range n).map (fun j => d * b ^ (t + j)) := by
  intro fuel
  induction fuel with
  | zero =>
    intro t s
    exact ⟨0, by simp [retryLoop]⟩
  | succ fuel ih =>
    intro t s
    rw [retryLoop]
    cases hf : f t with
    | ok a =>
      exact ⟨0, by simp⟩
    | error u =>
      dsimp only
      by_cases heq : t + 1 = m
      · rw [if_pos heq]
        exact ⟨0, by simp⟩
      · rw [if_neg heq]
        obtain ⟨n, hn⟩ := ih (t + 1) _
        refine ⟨n + 1, ?_⟩
        rw [hn, List.append_assoc]
        congr 1
        rw [List.range_succ_eq_map]
        have hfun : (fun j => d * b ^ (t + 1 + j)) =
            (fun j => d * b ^ (t + (j + 1))) := by
          funext j
          have h : t + 1 + j = t + (j + 1) := by omega
          rw [h]
        simp [List.map_map, Function.comp, hfun]

/-! Theorems for the claims of the specification. -/


/-- C1, counterexample: the claim that the body is written only to a
temporary path and no partial download is ever present at the final
destination is false. In this concrete run every fetch returns status 200
with the non-PDF body [1,2,3,4]; the run fails (returns None), yet the
invalid body sits at the final destination path. -/
theorem C1_counterexample :
    (download_pdf (fun _ => Except.ok ⟨200, [1, 2, 3, 4]⟩) "d" "u/a.p" 5 3
      []).1 = none ∧
    fsGet (download_pdf (fun _ => Except.ok ⟨200, [1, 2, 3, 4]⟩) "d" "u/a.p"
      5 3 []).2.1 (create_pdf_filename "d" "u/a.p") = some [1, 2, 3, 4] ∧
    is_pdf_valid (some [1, 2, 3, 4]) = false := by decide

/-- C1, amended: download_pdf writes the fetched body directly to the
final destination path. Every file write in the trace of any execution
targets exactly the destination filename computed from the URL; no
temporary path and no rename step exist. -/
theorem C1_writes_go_directly_to_destination (net : NetOracle)
    (dir link : String) (rd mr : Nat) (fs : FS) :
    ∀ e ∈ (download_pdf net dir link rd mr fs).2.2, ∀ p c,
      e = Event.fileWrite p c → p = create_pdf_filename dir link := by
  intro e he p c hep
  unfold download_pdf at he
  dsimp only at he
  by_cases hex : (fsGet fs (create_pdf_filename dir link)).isSome
  · rw [if_pos hex] at he
    simp at he
  · rw [if_neg hex] at he
    rcases downloadLoop_events net link (create_pdf_filename dir link) rd mr
        mr 1 fs [] e he with h | h | h | h
    · simp at h
    · obtain ⟨n, hn⟩ := h
      rw [hep] at hn
      exact Event.noConfusion hn
    · obtain ⟨c', hc⟩ := h
      rw [hep] at hc
      injection hc with h1 h2
    · rw [hep] at h
      exact Event.noConfusion h

/-- Witness for C1's amended theorem at a concrete execution containing a
file write. -/
theorem C1_writes_go_directly_to_destination_witness :
    Event.fileWrite "d/a.p" [1, 2, 3, 4] ∈
      (download_pdf (fun _ => Except.ok ⟨200, [1, 2, 3, 4]⟩) "d" "u/a.p" 5 3
        []).2.2 ∧
    "d/a.p" = create_pdf_filename "d" "u/a.p" :=
  ⟨by decide,
   C1_writes_go_directly_to_destination
     (fun _ => Except.ok ⟨200, [1, 2, 3, 4]⟩) "d" "u/a.p" 5 3 []
     (Event.fileWrite "d/a.p" [1, 2, 3, 4]) (by decide) "d/a.p" [1, 2, 3, 4]
     rfl⟩

/-- C2, counterexample: in pdf_downloader.py an artifact with a wrong
signature is not removed. In this run validation fails on every attempt;
the call returns the generic failure outcome None and the malformed file
is still present at the destination path, violating the claimed
post-condition that the path does not exist. -/
theorem C2_counterexample :
    is_pdf_valid (some [9, 9, 9, 9]) = false ∧
    (download_pdf (fun _ => Except.ok ⟨200, [9, 9, 9, 9]⟩) "p" "v/b.q" 1 2
      []).1 = none ∧
    fsGet (download_pdf (fun _ => Except.ok ⟨200, [9, 9, 9, 9]⟩) "p" "v/b.q"
      1 2 []).2.1 (create_pdf_filename "p" "v/b.q") = some [9, 9, 9, 9] := by
  decide

/-- C2, amended: only the v1 pipeline removes a malformed artifact. When
a v1 fetch succeeds with a body the validator rejects, download_pdf
returns False at once, the freshly written file has been removed (its
path maps to nothing), and the trace records the removal. -/
theorem C2_invalid_removed_in_v1_only (net : V1Net)
    (parses : List Nat → Bool) (dir url : String) (mr rd : Nat) (fs : FS)
    (evs : List Event) (body : List Nat) (hmr : 0 < mr)
    (hnet : net 0 = Except.ok body) (hval : parses body = false) :
    (v1_download_pdf net parses dir url mr rd fs evs).1 = false ∧
    fsGet (v1_download_pdf net parses dir url mr rd fs evs).2.1
      (get_unique_filename fs dir url) = none ∧
    Event.fileRemove (get_unique_filename fs dir url) ∈
      (v1_download_pdf net parses dir url mr rd fs evs).2.2 := by
  unfold v1_download_pdf
  obtain ⟨mr', rfl⟩ : ∃ m, mr = m + 1 := ⟨mr - 1, by omega⟩
  rw [v1_invalid_case net parses dir url (mr' + 1) rd mr' 0 fs evs body hnet
    hval]
  exact ⟨rfl, fsGet_fsRemove _ _, by simp⟩

/-- Witness for C2's amended theorem at a concrete invalid body. -/
theorem C2_invalid_removed_in_v1_only_witness :
    (v1_download_pdf (fun _ => Except.ok [9, 9]) (fun _ => false) "d" "u/c.p"
      3 5 [] []).1 = false ∧
    fsGet (v1_download_pdf (fun _ => Except.ok [9, 9]) (fun _ => false) "d"
      "u/c.p" 3 5 [] []).2.1 (get_unique_filename [] "d" "u/c.p") = none ∧
    Event.fileRemove (get_unique_filename [] "d" "u/c.p") ∈
      (v1_download_pdf (fun _ => Except.ok [9, 9]) (fun _ => false) "d"
        "u/c.p" 3 5 [] []).2.2 :=
  C2_invalid_removed_in_v1_only (fun _ => Except.ok [9, 9]) (fun _ => false)
    "d" "u/c.p" 3 5 [] [] [9, 9] (by decide) rfl rfl

/-- C3, counterexample: pdf_downloader.py retries after a validation
failure. With a wrong-signature body on every attempt, the trace contains
network calls for attempts 2 and 3 after attempt 1's validation failed,
so acquire does not return immediately without further fetches. -/
theorem C3_counterexample :
    is_pdf_valid (some [8, 8, 8, 8]) = false ∧
    Event.netCall "w/c.r" 2 ∈ (download_pdf
      (fun _ => Except.ok ⟨200, [8, 8, 8, 8]⟩) "q" "w/c.r" 2 3 []).2.2 ∧
    Event.netCall "w/c.r" 3 ∈ (download_pdf
      (fun _ => Except.ok ⟨200, [8, 8, 8, 8]⟩) "q" "w/c.r" 2 3 []).2.2 ∧
    (download_pdf (fun _ => Except.ok ⟨200, [8, 8, 8, 8]⟩) "q" "w/c.r" 2 3
      []).1 = none := by decide

/-- C3, amended: only the v1 pipeline stops on a validation failure.
When a v1 fetch succeeds with a body the validator rejects, download_pdf
returns False immediately and the only network call in the new trace is
the one for the deciding attempt. -/
theorem C3_invalid_immediate_in_v1_only (net : V1Net)
    (parses : List Nat → Bool) (dir url : String) (mr rd : Nat) (fs : FS)
    (evs : List Event) (body : List Nat) (hmr : 0 < mr)
    (hnet : net 0 = Except.ok body) (hval : parses body = false) :
    (v1_download_pdf net parses dir url mr rd fs evs).1 = false ∧
    ∀ n, Event.netCall url n ∈
        (v1_download_pdf net parses dir url mr rd fs evs).2.2 →
      Event.netCall url n ∈ evs ∨ n = 0 := by
  unfold v1_download_pdf
  obtain ⟨mr', rfl⟩ : ∃ m, mr = m + 1 := ⟨mr - 1, by omega⟩
  rw [v1_invalid_case net parses dir url (mr' + 1) rd mr' 0 fs evs body hnet
    hval]
  refine ⟨rfl, ?_⟩
  intro n hn
  rcases List.mem_append.mp hn with h | h
  · exact Or.inl h
  · simp at h
    exact Or.inr h

/-- Witness for C3's amended theorem at a concrete invalid body. -/
theorem C3_invalid_immediate_in_v1_only_witness :
    (v1_download_pdf (fun _ => Except.ok [7, 7]) (fun _ => false) "e" "u/d.p"
      3 2 [] []).1 = false ∧
    Event.netCall "u/d.p" 0 ∈ (v1_download_pdf (fun _ => Except.ok [7, 7])
      (fun _ => false) "e" "u/d.p" 3 2 [] []).2.2 ∧
    (Event.netCall "u/d.p" 0 ∈ ([] : List Event) ∨ (0 : Nat) = 0) :=
  ⟨(C3_invalid_immediate_in_v1_only (fun _ => Except.ok [7, 7])
      (fun _ => false) "e" "u/d.p" 3 2 [] [] [7, 7] (by decide) rfl rfl).1,
   by decide,
   (C3_invalid_immediate_in_v1_only (fun _ => Except.ok [7, 7])
      (fun _ => false) "e" "u/d.p" 3 2 [] [] [7, 7] (by decide) rfl rfl).2 0
     (by decide)⟩

/-- C4, counterexample: the v1 pipeline is not idempotent. After a
successful download stored d/a_1.p, a second call for the same URL
performs a network call again and writes a second copy d/a_2.p instead of
returning a skipped outcome with zero network calls. -/
theorem C4_counterexample :
    (v1_download_pdf (fun _ => Except.ok [37, 80, 68, 70]) (fun _ => true)
      "d" "u/a.p" 3 5 [] []).2.1 = [("d/a_1.p", [37, 80, 68, 70])] ∧
    Event.netCall "u/a.p" 0 ∈ (v1_download_pdf
      (fun _ => Except.ok [37, 80, 68, 70]) (fun _ => true) "d" "u/a.p" 3 5
      [("d/a_1.p", [37, 80, 68, 70])] []).2.2 ∧
    fsGet (v1_download_pdf (fun _ => Except.ok [37, 80, 68, 70])
      (fun _ => true) "d" "u/a.p" 3 5
      [("d/a_1.p", [37, 80, 68, 70])] []).2.1 "d/a_2.p" =
      some [37, 80, 68, 70] := by decide

/-- C4, amended: the skip-if-exists behaviour holds for
pdf_downloader.py only. When the computed destination exists,
download_pdf returns it at once with an empty trace, hence zero network
calls; and a second call after any call that returned a filename skips
the same way. -/
theorem C4_skip_exists_only_in_pdf_downloader (net net' : NetOracle)
    (dir link : String) (rd rd' mr mr' : Nat) (fs : FS) :
    ((fsGet fs (create_pdf_filename dir link)).isSome = true →
      download_pdf net dir link rd mr fs =
        (some (create_pdf_filename dir link), fs, [])) ∧
    (∀ f fs' evs, download_pdf net dir link rd mr fs = (some f, fs', evs) →
      download_pdf net' dir link rd' mr' fs' = (some f, fs', [])) := by
  constructor
  · intro hex
    unfold download_pdf
    dsimp only
    rw [if_pos hex]
  · intro f fs' evs hres
    unfold download_pdf at hres ⊢
    dsimp only at hres ⊢
    by_cases hex : (fsGet fs (create_pdf_filename dir link)).isSome
    · rw [if_pos hex] at hres
      have h1 := congrArg Prod.fst hres
      have h2 := congrArg (fun r => r.2.1) hres
      simp only [Option.some.injEq] at h1
      simp only at h2
      rw [← h2, if_pos hex, h1]
    · rw [if_neg hex] at hres
      obtain ⟨hf, hsome⟩ := downloadLoop_some net link
        (create_pdf_filename dir link) rd mr mr 1 fs [] f fs' evs hres
      subst hf
      rw [if_pos hsome]

/-- Witness for C4's amended theorem: a direct skip and a
skip-after-success, both at concrete inputs. -/
theorem C4_skip_exists_only_in_pdf_downloader_witness :
    download_pdf (fun _ => Except.ok ⟨200, [37, 80, 68, 70]⟩) "d" "u/a.p" 5 3
      [("d/a.p", [37, 80, 68, 70])] =
      (some (create_pdf_filename "d" "u/a.p"),
       [("d/a.p", [37, 80, 68, 70])], []) ∧
    download_pdf (fun _ => Except.error ()) "d" "u/a.p" 7 4
      [("d/a.p", [37, 80, 68, 70])] =
      (some "d/a.p", [("d/a.p", [37, 80, 68, 70])], []) :=
  ⟨(C4_skip_exists_only_in_pdf_downloader
      (fun _ => Except.ok ⟨200, [37, 80, 68, 70]⟩) (fun _ => Except.error ())
      "d" "u/a.p" 5 7 3 4 [("d/a.p", [37, 80, 68, 70])]).1 (by decide),
   (C4_skip_exists_only_in_pdf_downloader
      (fun _ => Except.ok ⟨200, [37, 80, 68, 70]⟩) (fun _ => Except.error ())
      "d" "u/a.p" 5 7 3 4 []).2 "d/a.p" [("d/a.p", [37, 80, 68, 70])]
     [Event.netCall "u/a.p" 1, Event.fileWrite "d/a.p" [37, 80, 68, 70]]
     (by decide)⟩

/-- C5: with exactly one try remaining, solve_captcha selects the human
strategy and never takes the AI branch or contacts the remote service,
for every remote-service configuration; when the artifact fetch succeeds
the human strategy selection is recorded. -/
theorem C5_last_attempt_forces_human (cfg : CapConfig) (o : CapOracle)
    (fc mc ac ec : Nat) (fe : Bool) :
    CapEvent.selectAI ∉
      capResultEvents (solve_captcha cfg o 1 ⟨fc, mc, ac, ec, fe, []⟩) ∧
    CapEvent.aiServiceCall ∉
      capResultEvents (solve_captcha cfg o 1 ⟨fc, mc, ac, ec, fe, []⟩) ∧
    (o.fetchOk fc = true →
      CapEvent.selectHuman ∈
        capResultEvents (solve_captcha cfg o 1 ⟨fc, mc, ac, ec, fe, []⟩)) := by
  rw [solve_captcha_one]
  by_cases hfk : o.fetchOk fc
  · have hfe : fetch_captcha_file o ⟨fc, mc, ac, ec, fe, []⟩ =
        Except.ok ⟨fc + 1, mc, ac, ec, true, [CapEvent.fetchArtifact]⟩ := by
      simp [fetch_captcha_file, hfk]
    rw [hfe]
    dsimp only
    refine ⟨?_, ?_, fun _ => ?_⟩ <;>
      simp [capResultEvents, clean_events, enter_snd, solve_captcha_manually]
  · have hfe : fetch_captcha_file o ⟨fc, mc, ac, ec, fe, []⟩ =
        Except.error ⟨fc + 1, mc, ac, ec, fe, []⟩ := by
      simp [fetch_captcha_file, hfk]
    rw [hfe]
    dsimp only
    refine ⟨?_, ?_, fun h => absurd h hfk⟩ <;>
      cases fe <;> simp [capResultEvents, clean_events]

/-- Witness for C5 at a concrete configured-service oracle. -/
theorem C5_last_attempt_forces_human_witness :
    CapEvent.selectAI ∉ capResultEvents (solve_captcha ⟨"u", "k"⟩
      ⟨fun _ => true, fun _ => "m", fun _ => Except.ok "a",
       fun _ => EnterOutcome.accepted⟩ 1 ⟨0, 0, 0, 0, false, []⟩) ∧
    CapEvent.aiServiceCall ∉ capResultEvents (solve_captcha ⟨"u", "k"⟩
      ⟨fun _ => true, fun _ => "m", fun _ => Except.ok "a",
       fun _ => EnterOutcome.accepted⟩ 1 ⟨0, 0, 0, 0, false, []⟩) ∧
    CapEvent.selectHuman ∈ capResultEvents (solve_captcha ⟨"u", "k"⟩
      ⟨fun _ => true, fun _ => "m", fun _ => Except.ok "a",
       fun _ => EnterOutcome.accepted⟩ 1 ⟨0, 0, 0, 0, false, []⟩) :=
  ⟨(C5_last_attempt_forces_human ⟨"u", "k"⟩
      ⟨fun _ => true, fun _ => "m", fun _ => Except.ok "a",
       fun _ => EnterOutcome.accepted⟩ 0 0 0 0 false).1,
   (C5_last_attempt_forces_human ⟨"u", "k"⟩
      ⟨fun _ => true, fun _ => "m", fun _ => Except.ok "a",
       fun _ => EnterOutcome.accepted⟩ 0 0 0 0 false).2.1,
   (C5_last_attempt_forces_human ⟨"u", "k"⟩
      ⟨fun _ => true, fun _ => "m", fun _ => Except.ok "a",
       fun _ => EnterOutcome.accepted⟩ 0 0 0 0 false).2.2 rfl⟩

/-- C9: a zero or negative try budget is not rejected: solve_captcha
still fetches the artifact and takes the AI branch (only
tries_remaining == 1 forces the human branch), never selects the human
branch, and completes the attempt normally. -/
theorem C9_nonpositive_budget_still_runs (cfg : CapConfig) (o : CapOracle)
    (tries : Int) (fc mc ac ec : Nat) (fe : Bool) (htries : tries ≤ 0)
    (hfetch : o.fetchOk fc = true) :
    CapEvent.fetchArtifact ∈
      capResultEvents (solve_captcha cfg o tries ⟨fc, mc, ac, ec, fe, []⟩) ∧
    CapEvent.selectAI ∈
      capResultEvents (solve_captcha cfg o tries ⟨fc, mc, ac, ec, fe, []⟩) ∧
    CapEvent.selectHuman ∉
      capResultEvents (solve_captcha cfg o tries ⟨fc, mc, ac, ec, fe, []⟩) ∧
    (∃ b s', solve_captcha cfg o tries ⟨fc, mc, ac, ec, fe, []⟩ =
      Except.ok (b, s')) := by
  rw [solve_captcha_nonpos cfg o tries _ htries]
  have hfe : fetch_captcha_file o ⟨fc, mc, ac, ec, fe, []⟩ =
      Except.ok ⟨fc + 1, mc, ac, ec, true, [CapEvent.fetchArtifact]⟩ := by
    simp [fetch_captcha_file, hfetch]
  rw [hfe]
  dsimp only
  cases hai : solve_captcha_with_ai cfg o
      ⟨fc + 1, mc, ac, ec, true,
        [CapEvent.fetchArtifact] ++ [CapEvent.selectAI]⟩ with
  | ok pair =>
    obtain ⟨sol, s3⟩ := pair
    dsimp only
    rcases ai_ok_events _ _ _ _ _ hai with h3 | h3 <;>
      refine ⟨?_, ?_, ?_, ⟨_, _, rfl⟩⟩ <;>
        cases hex : s3.fileExists <;>
          simp [capResultEvents, clean_events, enter_snd, h3, hex]
  | error s3 =>
    dsimp only
    have h3 := ai_error_events _ _ _ _ hai
    refine ⟨?_, ?_, ?_, ⟨_, _, rfl⟩⟩ <;>
      cases hex : s3.fileExists <;>
        simp [capResultEvents, clean_events, enter_snd,
          solve_captcha_manually, h3, hex]

/-- Witness for C9 at budget -1 with a configured service. -/
theorem C9_nonpositive_budget_still_runs_witness :
    CapEvent.fetchArtifact ∈ capResultEvents (solve_captcha ⟨"u", "k"⟩
      ⟨fun _ => true, fun _ => "m", fun _ => Except.ok "a",
       fun _ => EnterOutcome.wrongMarker⟩ (-1) ⟨0, 0, 0, 0, false, []⟩) ∧
    CapEvent.selectAI ∈ capResultEvents (solve_captcha ⟨"u", "k"⟩
      ⟨fun _ => true, fun _ => "m", fun _ => Except.ok "a",
       fun _ => EnterOutcome.wrongMarker⟩ (-1) ⟨0, 0, 0, 0, false, []⟩) ∧
    CapEvent.selectHuman ∉ capResultEvents (solve_captcha ⟨"u", "k"⟩
      ⟨fun _ => true, fun _ => "m", fun _ => Except.ok "a",
       fun _ => EnterOutcome.wrongMarker⟩ (-1) ⟨0, 0, 0, 0, false, []⟩) ∧
    (∃ b s', solve_captcha ⟨"u", "k"⟩
      ⟨fun _ => true, fun _ => "m", fun _ => Except.ok "a",
       fun _ => EnterOutcome.wrongMarker⟩ (-1) ⟨0, 0, 0, 0, false, []⟩ =
      Except.ok (b, s')) :=
  C9_nonpositive_budget_still_runs ⟨"u", "k"⟩
    ⟨fun _ => true, fun _ => "m", fun _ => Except.ok "a",
     fun _ => EnterOutcome.wrongMarker⟩ (-1) 0 0 0 0 false (by decide) rfl

/-- C10: the submission step never raises: a browser exception during
fill/submit yields the same False result and the same state as a
wrong-solution page marker, and an entire solve_captcha run is unchanged
when every submission exception of the oracle is replaced by a
wrong-solution marker, so a failure consumes a retry attempt exactly as a
wrong solution does. -/
theorem C10_submission_exception_equals_wrong_solution (cfg : CapConfig)
    (o : CapOracle) (tries : Int) (s sx : CapState) (sol : String) :
    (o.enter sx.enterCnt = EnterOutcome.throws →
      enter_captcha_solution o sol sx = (false,
        { sx with enterCnt := sx.enterCnt + 1,
                  events := sx.events ++ [CapEvent.submitSolution sol] })) ∧
    (o.enter sx.enterCnt = EnterOutcome.wrongMarker →
      enter_captcha_solution o sol sx = (false,
        { sx with enterCnt := sx.enterCnt + 1,
                  events := sx.events ++ [CapEvent.submitSolution sol] })) ∧
    solve_captcha cfg (degradeEnter o) tries s =
      solve_captcha cfg o tries s := by
  refine ⟨?_, ?_,
    solve_captcha_degrade_aux cfg o tries.toNat tries s le_rfl⟩
  · intro h
    unfold enter_captcha_solution
    rw [h]
    rfl
  · intro h
    unfold enter_captcha_solution
    rw [h]
    rfl

/-- Witness for C10: both submission outcomes at concrete oracles, and a
whole-run equality at budget 2. -/
theorem C10_submission_exception_equals_wrong_solution_witness :
    enter_captcha_solution
      ⟨fun _ => true, fun _ => "m", fun _ => Except.ok "a",
       fun _ => EnterOutcome.throws⟩ "x" ⟨0, 0, 0, 0, true, []⟩ =
      (false, ⟨0, 0, 0, 1, true, [CapEvent.submitSolution "x"]⟩) ∧
    enter_captcha_solution
      ⟨fun _ => true, fun _ => "m", fun _ => Except.ok "a",
       fun _ => EnterOutcome.wrongMarker⟩ "x" ⟨0, 0, 0, 0, true, []⟩ =
      (false, ⟨0, 0, 0, 1, true, [CapEvent.submitSolution "x"]⟩) ∧
    solve_captcha ⟨"u", "k"⟩ (degradeEnter
      ⟨fun _ => true, fun _ => "m", fun _ => Except.error (),
       fun _ => EnterOutcome.throws⟩) 2 ⟨0, 0, 0, 0, false, []⟩ =
      solve_captcha ⟨"u", "k"⟩
        ⟨fun _ => true, fun _ => "m", fun _ => Except.error (),
         fun _ => EnterOutcome.throws⟩ 2 ⟨0, 0, 0, 0, false, []⟩ :=
  ⟨(C10_submission_exception_equals_wrong_solution ⟨"u", "k"⟩
      ⟨fun _ => true, fun _ => "m", fun _ => Except.ok "a",
       fun _ => EnterOutcome.throws⟩ 2 ⟨0, 0, 0, 0, false, []⟩
      ⟨0, 0, 0, 0, true, []⟩ "x").1 rfl,
   (C10_submission_exception_equals_wrong_solution ⟨"u", "k"⟩
      ⟨fun _ => true, fun _ => "m", fun _ => Except.ok "a",
       fun _ => EnterOutcome.wrongMarker⟩ 2 ⟨0, 0, 0, 0, false, []⟩
      ⟨0, 0, 0, 0, true, []⟩ "x").2.1 rfl,
   (C10_submission_exception_equals_wrong_solution ⟨"u", "k"⟩
      ⟨fun _ => true, fun _ => "m", fun _ => Except.error (),
       fun _ => EnterOutcome.throws⟩ 2 ⟨0, 0, 0, 0, false, []⟩
      ⟨0, 0, 0, 0, true, []⟩ "x").2.2⟩

/-- C6, counterexample: a corrupt resume-state file is not treated as
absent: load_resume_state propagates the pickle.load exception instead of
returning the empty set. -/
theorem C6_counterexample :
    load_resume_state StateFile.corrupt = Except.error () ∧
    load_resume_state StateFile.corrupt ≠ Except.ok [] := by decide

/-- C6, amended: load_resume_state returns the empty set when the backing
file is absent and the stored identifiers when it is intact, but a
corrupt file makes the whole crawl constructor raise rather than being
treated as absent. -/
theorem C6_load_absent_empty_corrupt_raises (urls : List String)
    (net : String → V1Net) (parses : List Nat → Bool) (dir : String)
    (mr rd : Nat) (fs : FS) (ids : List String) :
    load_resume_state StateFile.absent = Except.ok [] ∧
    load_resume_state (StateFile.valid ids) = Except.ok ids ∧
    v1_crawl StateFile.corrupt urls net parses dir mr rd fs =
      Except.error () := ⟨rfl, rfl, rfl⟩

/-- C7, failing-input evaluation: with resume state {u/a.p}, a crawl over
[u/a.p] still dispatches the target (a network call occurs) and persists
the loaded state unchanged, and a crawl over a fresh target [v/b.p]
completes it without ever marking it done — the code never consults
contains and never calls any markDone. -/
theorem C7_pool_ignores_state_eval :
    v1_crawl (StateFile.valid ["u/a.p"]) ["u/a.p"]
      (fun _ _ => Except.ok [37, 80, 68, 70]) (fun _ => true) "d" 3 5 [] =
      Except.ok ⟨[("d/a_1.p", [37, 80, 68, 70])],
        [Event.netCall "u/a.p" 0,
         Event.fileWrite "d/a_1.p" [37, 80, 68, 70]],
        ["u/a.p"], [true]⟩ ∧
    v1_crawl (StateFile.valid ["u/a.p"]) ["v/b.p"]
      (fun _ _ => Except.ok [37, 80, 68, 70]) (fun _ => true) "d" 3 5 [] =
      Except.ok ⟨[("d/b_1.p", [37, 80, 68, 70])],
        [Event.netCall "v/b.p" 0,
         Event.fileWrite "d/b_1.p" [37, 80, 68, 70]],
        ["u/a.p"], [true]⟩ := by decide

/-- C8, counterexample: the retry decorator's waits after failed attempts
1 and 2 are 5 and 10 = 5 * 2 ^ (2-1), but the download pipeline's wait
after attempt 2 is the constant 5, not base * backoff ^ (n-1). -/
theorem C8_counterexample :
    (retryCall (fun _ => (Except.error () : Except Unit Nat)) 3 5 2).2 =
      [5, 10] ∧
    (download_pdf (fun _ => Except.error ()) "d" "u/x.p" 5 3 []).2.2 =
      [Event.netCall "u/x.p" 1, Event.sleep 5, Event.netCall "u/x.p" 2,
       Event.sleep 5, Event.netCall "u/x.p" 3] ∧
    5 * 2 ^ (2 - 1) = 10 ∧ (5 : Nat) ≠ 10 := by decide

/-- C8, amended: the selenium retry decorator's j-th recorded wait is
delay * backoff ^ j (the claimed geometric formula, 1-indexed attempt
j+1), while both download pipelines wait the constant retry_delay between
attempts. -/
theorem C8_decorator_geometric_pipeline_constant
    (f : Nat → Except Unit Nat) (m d b : Nat) (net : NetOracle)
    (dir link : String) (rd mr : Nat) (fs : FS) (netv : V1Net)
    (parses : List Nat → Bool) (dir2 url2 : String) (mr2 rd2 : Nat)
    (fs2 : FS) :
    (∃ n, (retryCall f m d b).2 =
      (List.range n).map (fun j => d * b ^ j)) ∧
    (∀ e ∈ (download_pdf net dir link rd mr fs).2.2, ∀ k,
      e = Event.sleep k → k = rd) ∧
    (∀ e ∈ (v1_download_pdf netv parses dir2 url2 mr2 rd2 fs2 []).2.2, ∀ k,
      e = Event.sleep k → k = rd2) := by
  refine ⟨?_, ?_, ?_⟩
  · obtain ⟨n, hn⟩ := retryLoop_sleeps f m d b m 0 []
    refine ⟨n, ?_⟩
    unfold retryCall
    rw [hn]
    simp
  · intro e he k hek
    unfold download_pdf at he
    dsimp only at he
    by_cases hex : (fsGet fs (create_pdf_filename dir link)).isSome
    · rw [if_pos hex] at he
      simp at he
    · rw [if_neg hex] at he
      rcases downloadLoop_events net link (create_pdf_filename dir link) rd
          mr mr 1 fs [] e he with h | h | h | h
      · simp at h
      · obtain ⟨n, hn⟩ := h
        rw [hek] at hn
        exact Event.noConfusion hn
      · obtain ⟨c, hc⟩ := h
        rw [hek] at hc
        exact Event.noConfusion hc
      · rw [hek] at h
        injection h with h1
  · intro e he k hek
    unfold v1_download_pdf at he
    rcases v1_downloadLoop_events netv parses dir2 url2 mr2 rd2 mr2 0 fs2
        [] e he with h | h | h | h | h
    · simp at h
    · obtain ⟨n, hn⟩ := h
      rw [hek] at hn
      exact Event.noConfusion hn
    · obtain ⟨p, c, hc⟩ := h
      rw [hek] at hc
      exact Event.noConfusion hc
    · obtain ⟨p, hp⟩ := h
      rw [hek] at hp
      exact Event.noConfusion hp
    · rw [hek] at h
      injection h with h1

/-- Witness for C8's amended theorem: geometric decorator waits and
constant pipeline sleeps at concrete runs. -/
theorem C8_decorator_geometric_pipeline_constant_witness :
    (∃ n, (retryCall (fun _ => (Except.error () : Except Unit Nat)) 3 5
      2).2 = (List.range n).map (fun j => 5 * 2 ^ j)) ∧
    (5 : Nat) = 5 ∧ (7 : Nat) = 7 :=
  ⟨(C8_decorator_geometric_pipeline_constant
      (fun _ => (Except.error () : Except Unit Nat)) 3 5 2
      (fun _ => Except.error ()) "d" "u/x.p" 5 3 []
      (fun _ => Except.error ()) (fun _ => true) "e" "u/y.p" 3 7 []).1,
   (C8_decorator_geometric_pipeline_constant
      (fun _ => (Except.error () : Except Unit Nat)) 3 5 2
      (fun _ => Except.error ()) "d" "u/x.p" 5 3 []
      (fun _ => Except.error ()) (fun _ => true) "e" "u/y.p" 3 7 []).2.1
     (Event.sleep 5) (by decide) 5 rfl,
   (C8_decorator_geometric_pipeline_constant
      (fun _ => (Except.error () : Except Unit Nat)) 3 5 2
      (fun _ => Except.error ()) "d" "u/x.p" 5 3 []
      (fun _ => Except.error ()) (fun _ => true) "e" "u/y.p" 3 7 []).2.2
     (Event.sleep 7) (by decide) 7 rfl⟩

end Scraping
